import Mathlib

/-!
Verification development for the two NLP-to-SQL services in this repository
(`src/testingdirectway/piagent.py` and `src/cddpiagetdataqna/main.py`).

The Python string scanning is embedded over `List Char`, with the ASCII
fragment of Python's regex character classes (`\s`, `\w`, `re.IGNORECASE`)
and of `str.strip()`; the generated SQL handled by the service is ASCII.
-/

set_option maxHeartbeats 1000000
set_option maxRecDepth 4096
set_option linter.unusedVariables false

namespace PiAgent

/-- ASCII whitespace, the characters matched by Python's `\s` and stripped by
`str.strip()` on ASCII text: space, tab, newline, carriage return, vertical
tab, form feed. -/
def isSpaceChar (c : Char) : Bool :=
  c.toNat = 32 || c.toNat = 9 || c.toNat = 10 || c.toNat = 13 ||
    c.toNat = 11 || c.toNat = 12

/-- ASCII word characters, Python's `\w` on ASCII text: digits, upper and
lower case letters, underscore.  Used for the `\b` word boundaries of the
validator's regexes. -/
def isWordChar (c : Char) : Bool :=
  (48 ≤ c.toNat && c.toNat ≤ 57) || (65 ≤ c.toNat && c.toNat ≤ 90) ||
    (97 ≤ c.toNat && c.toNat ≤ 122) || c.toNat = 95

/-- Code point of a character after ASCII upper-casing; used to compare
characters case-insensitively as `re.IGNORECASE` does on ASCII text. -/
def upNat (c : Char) : Nat :=
  if 97 ≤ c.toNat ∧ c.toNat ≤ 122 then c.toNat - 32 else c.toNat

/-- Case-insensitive character equality (ASCII). -/
def ciEq (a b : Char) : Bool := upNat a == upNat b

/-- Case-insensitive test that `kw` is a prefix of `s`. -/
def startsWithCI : List Char → List Char → Bool
  | [], _ => true
  | _ :: _, [] => false
  | k :: ks, c :: cs => ciEq k c && startsWithCI ks cs

/-- True when the list does not start with a word character (so a `\b`
boundary holds at this position coming from a word character). -/
def noWordCharHead : List Char → Bool
  | [] => true
  | c :: _ => !isWordChar c

/-- Match of `\bkw` anchored at the head of `s` together with the trailing
`\b` boundary: `kw` is a case-insensitive prefix of `s` and the character
following the match, if any, is not a word character. -/
def wordAtHead (kw s : List Char) : Bool :=
  startsWithCI kw s && noWordCharHead (s.drop kw.length)

/-- Scan for `\bkw\b` (case-insensitive) in the remaining input; `prev`
records whether the character just before the current position is a word
character (so that the leading `\b` boundary can be checked). -/
def containsWordFrom (kw : List Char) : List Char → Bool → Bool
  | [], _ => false
  | c :: cs, prev =>
      (!prev && wordAtHead kw (c :: cs)) || containsWordFrom kw cs (isWordChar c)

/-- Python's `re.search(r"\b" + kw + r"\b", s, re.IGNORECASE) is not None`
for an alphabetic keyword `kw`. -/
def containsWordCI (kw s : List Char) : Bool := containsWordFrom kw s false

/-- Drop leading ASCII whitespace (`str.lstrip()` / the `^\s*` regex part). -/
def dropLeadingSpaces : List Char → List Char
  | [] => []
  | c :: cs => if isSpaceChar c then dropLeadingSpaces cs else c :: cs

/-- Drop trailing ASCII whitespace (`str.rstrip()`). -/
def dropTrailingSpaces : List Char → List Char
  | [] => []
  | c :: cs =>
      let r := dropTrailingSpaces cs
      if r.isEmpty && isSpaceChar c then [] else c :: r

/-- Python's `str.strip()` on ASCII text. -/
def stripChars (s : List Char) : List Char :=
  dropTrailingSpaces (dropLeadingSpaces s)

def selectKw : List Char := "SELECT".data

def withKw : List Char := "WITH".data

/-- Result of `re.match(r"^\s*(SELECT|WITH)\b", t, re.IGNORECASE)`:
`group(1).upper()` when the match succeeds. -/
inductive StartKw where
  | sel
  | cte
deriving Repr, DecidableEq

/-- The structural head match of the validator, piagent.py lines 547-551:
skip leading whitespace, then try the alternatives `SELECT` and `WITH`,
each followed by a `\b` boundary. -/
def structMatch (t : List Char) : Option StartKw :=
  let u := dropLeadingSpaces t
  if wordAtHead selectKw u then some .sel
  else if wordAtHead withKw u then some .cte
  else none

/-- The verdict record assembled by the validation block of `ask_nlp_query`
(piagent.py lines 537-579): the flags `is_valid_query_structure`,
`is_safe_for_readonly` and the `validation_error_message` text. -/
structure SqlVerdict where
  is_valid_query_structure : Bool
  is_safe_for_readonly : Bool
  validation_error_message : String
deriving Repr, DecidableEq

/-- The forbidden keyword list of piagent.py lines 568-571, in source
order. -/
def forbidden_keywords : List String :=
  ["INSERT", "UPDATE", "DELETE", "DROP", "CREATE",
   "ALTER", "TRUNCATE", "GRANT", "REVOKE", "MERGE"]

/-- The rejection message of piagent.py line 576. -/
def disallowedMsg (kw : String) : String :=
  "Generated SQL contains a disallowed keyword: " ++ kw ++
    ". Only SELECT queries are permitted."

/-- First keyword of `forbidden_keywords` (in list order, as the `for` loop
with `break` of piagent.py lines 573-579) occurring whole-word
case-insensitively in `t`. -/
def firstForbidden (t : List Char) : Option String :=
  forbidden_keywords.find? (fun kw => containsWordCI kw.data t)

/-- Forbidden-keyword scan of a structurally valid query (piagent.py lines
567-579): on the first hit `is_safe_for_readonly` becomes false and the
message is set; otherwise the verdict is fully valid with an empty
message. -/
def scanVerdict (t : List Char) : SqlVerdict :=
  match firstForbidden t with
  | some kw => ⟨true, false, disallowedMsg kw⟩
  | none => ⟨true, true, ""⟩

/-- The SQL validation block of `ask_nlp_query`, piagent.py lines 536-579,
as a pure function of the generated SQL string. -/
def validate_generated_sql (generated_sql : String) : SqlVerdict :=
  if stripChars generated_sql.data = [] then
    ⟨false, true, "LLM returned an empty SQL query."⟩
  else
    let t := stripChars generated_sql.data
    match structMatch t with
    | some .sel => scanVerdict t
    | some .cte =>
        if containsWordCI selectKw t then scanVerdict t
        else ⟨false, true, "SQL starts with WITH but does not contain a SELECT statement."⟩
    | none => ⟨false, true, "Generated SQL must start with SELECT or WITH."⟩

/-- Claim-side reading of "begins, after optional leading whitespace and
case-insensitively, with SELECT" (as a whole word). -/
def beginsWithSelectKw (s : String) : Bool :=
  wordAtHead selectKw (dropLeadingSpaces s.data)

/-- Claim-side reading of "begins, after optional leading whitespace and
case-insensitively, with WITH" (as a whole word). -/
def beginsWithWithKw (s : String) : Bool :=
  wordAtHead withKw (dropLeadingSpaces s.data)

/-- Upper-case ASCII letter; every character of the scanned keywords is
one. -/
def isUpperAZ (c : Char) : Bool := 65 ≤ c.toNat && c.toNat ≤ 90

lemma toNat_le_of_space {c : Char} (h : isSpaceChar c = true) : c.toNat ≤ 32 := by
  simp only [isSpaceChar, Bool.or_eq_true, decide_eq_true_eq] at h
  rcases h with ((((h | h) | h) | h) | h) | h <;> omega

lemma ciEq_upper_space {k c : Char} (hk : isUpperAZ k = true) (hc : isSpaceChar c = true) :
    ciEq k c = false := by
  have hc' : c.toNat ≤ 32 := toNat_le_of_space hc
  simp only [isUpperAZ, Bool.and_eq_true, decide_eq_true_eq] at hk
  simp only [ciEq, beq_eq_false_iff_ne, ne_eq]
  intro he
  unfold upNat at he
  split at he <;> split at he <;> omega

lemma isWordChar_of_space {c : Char} (h : isSpaceChar c = true) : isWordChar c = false := by
  have hc' : c.toNat ≤ 32 := toNat_le_of_space h
  apply Bool.eq_false_iff.mpr
  intro hw
  simp only [isWordChar, Bool.or_eq_true, Bool.and_eq_true, decide_eq_true_eq] at hw
  rcases hw with ((⟨h1, _⟩ | ⟨h1, _⟩) | ⟨h1, _⟩) | h1 <;> omega

lemma startsWithCI_spaces {k : Char} {ks sp : List Char} (hk : isUpperAZ k = true)
    (hsp : sp.all isSpaceChar = true) : startsWithCI (k :: ks) sp = false := by
  cases sp with
  | nil => rfl
  | cons d ds =>
      simp only [List.all_cons, Bool.and_eq_true] at hsp
      simp [startsWithCI, ciEq_upper_space hk hsp.1]

lemma startsWithCI_append_spaces {sp : List Char} (hsp : sp.all isSpaceChar = true) :
    ∀ kw xs, kw.all isUpperAZ = true →
      startsWithCI kw (xs ++ sp) = startsWithCI kw xs := by
  intro kw
  induction kw with
  | nil => intro xs _; rfl
  | cons k ks ih =>
      intro xs hkw
      simp only [List.all_cons, Bool.and_eq_true] at hkw
      cases xs with
      | nil =>
          simp only [List.nil_append]
          rw [startsWithCI_spaces hkw.1 hsp]
          rfl
      | cons x xt =>
          simp only [List.cons_append, startsWithCI, List.append_eq]
          rw [ih xt hkw.2]

lemma length_le_of_startsWithCI : ∀ {kw s : List Char}, startsWithCI kw s = true →
    kw.length ≤ s.length := by
  intro kw
  induction kw with
  | nil => intro s _; simp
  | cons k ks ih =>
      intro s h
      cases s with
      | nil => simp [startsWithCI] at h
      | cons c cs =>
          simp only [startsWithCI, Bool.and_eq_true] at h
          simp only [List.length_cons]
          exact Nat.succ_le_succ (ih h.2)

lemma noWordCharHead_append_spaces {sp : List Char} (hsp : sp.all isSpaceChar = true) :
    ∀ ys, noWordCharHead (ys ++ sp) = noWordCharHead ys := by
  intro ys
  cases ys with
  | nil =>
      cases sp with
      | nil => rfl
      | cons d ds =>
          simp only [List.all_cons, Bool.and_eq_true] at hsp
          simp [noWordCharHead, isWordChar_of_space hsp.1]
  | cons c ct => rfl

lemma wordAtHead_append_spaces {kw sp : List Char} (hall : kw.all isUpperAZ = true)
    (hsp : sp.all isSpaceChar = true) (xs : List Char) :
    wordAtHead kw (xs ++ sp) = wordAtHead kw xs := by
  unfold wordAtHead
  rw [startsWithCI_append_spaces hsp kw xs hall]
  cases hst : startsWithCI kw xs with
  | false => simp
  | true =>
      have hlen := length_le_of_startsWithCI hst
      rw [List.drop_append_of_le_length hlen, noWordCharHead_append_spaces hsp]

lemma exists_cons_of_ne_nil {kw : List Char} (hne : kw ≠ []) :
    ∃ k ks, kw = k :: ks := by
  cases kw with
  | nil => exact absurd rfl hne
  | cons a b => exact ⟨a, b, rfl⟩

lemma containsWordFrom_all_spaces {kw : List Char} (hne : kw ≠ [])
    (hall : kw.all isUpperAZ = true) :
    ∀ sp, sp.all isSpaceChar = true → ∀ p, containsWordFrom kw sp p = false := by
  intro sp
  induction sp with
  | nil => intro _ p; rfl
  | cons d ds ih =>
      intro hsp p
      simp only [List.all_cons, Bool.and_eq_true] at hsp
      obtain ⟨k, ks, hk⟩ := exists_cons_of_ne_nil hne
      subst hk
      simp only [List.all_cons, Bool.and_eq_true] at hall
      simp [containsWordFrom, wordAtHead, startsWithCI,
        ciEq_upper_space hall.1 hsp.1, ih hsp.2]

lemma containsWordFrom_append_spaces {kw sp : List Char} (hne : kw ≠ [])
    (hall : kw.all isUpperAZ = true) (hsp : sp.all isSpaceChar = true) :
    ∀ xs p, containsWordFrom kw (xs ++ sp) p = containsWordFrom kw xs p := by
  intro xs
  induction xs with
  | nil =>
      intro p
      simp only [List.nil_append]
      rw [containsWordFrom_all_spaces hne hall sp hsp p]
      rfl
  | cons x xt ih =>
      intro p
      simp only [List.cons_append, containsWordFrom, List.append_eq]
      have h1 : wordAtHead kw (x :: (xt ++ sp)) = wordAtHead kw (x :: xt) :=
        wordAtHead_append_spaces hall hsp (x :: xt)
      rw [h1, ih (isWordChar x)]

lemma containsWordFrom_spaces_prepend {kw : List Char} (hne : kw ≠ [])
    (hall : kw.all isUpperAZ = true) :
    ∀ sp, sp.all isSpaceChar = true →
      ∀ xs, containsWordFrom kw (sp ++ xs) false = containsWordFrom kw xs false := by
  intro sp
  induction sp with
  | nil => intro _ xs; rfl
  | cons d ds ih =>
      intro hsp xs
      simp only [List.all_cons, Bool.and_eq_true] at hsp
      obtain ⟨k, ks, hk⟩ := exists_cons_of_ne_nil hne
      subst hk
      simp only [List.all_cons, Bool.and_eq_true] at hall
      simp only [List.cons_append, containsWordFrom, wordAtHead, startsWithCI]
      rw [ciEq_upper_space hall.1 hsp.1, isWordChar_of_space hsp.1]
      simp only [Bool.false_and, Bool.and_false, Bool.false_or]
      exact ih hsp.2 xs

lemma dropLeadingSpaces_decomp (s : List Char) :
    ∃ sp, sp.all isSpaceChar = true ∧ s = sp ++ dropLeadingSpaces s := by
  induction s with
  | nil => exact ⟨[], rfl, rfl⟩
  | cons c cs ih =>
      cases hc : isSpaceChar c with
      | true =>
          obtain ⟨sp, hall, heq⟩ := ih
          refine ⟨c :: sp, ?_, ?_⟩
          · simp [List.all_cons, hall, hc]
          · simp only [dropLeadingSpaces, hc, if_true, List.cons_append]
            exact congrArg (c :: ·) heq
      | false =>
          exact ⟨[], rfl, by simp [dropLeadingSpaces, hc]⟩

lemma dropTrailingSpaces_decomp (s : List Char) :
    ∃ sp, sp.all isSpaceChar = true ∧ s = dropTrailingSpaces s ++ sp := by
  induction s with
  | nil => exact ⟨[], rfl, rfl⟩
  | cons c cs ih =>
      obtain ⟨sp, hall, heq⟩ := ih
      cases hcond : ((dropTrailingSpaces cs).isEmpty && isSpaceChar c) with
      | true =>
          have h1 : dropTrailingSpaces (c :: cs) = [] := by
            simp only [dropTrailingSpaces]
            rw [hcond]
            rfl
          obtain ⟨hemp, hc⟩ : (dropTrailingSpaces cs).isEmpty = true ∧ isSpaceChar c = true := by
            simpa [Bool.and_eq_true] using hcond
          have hcs : cs = sp := by
            rw [List.isEmpty_iff.mp hemp] at heq
            simpa using heq
          refine ⟨c :: cs, ?_, by simp [h1]⟩
          simp only [List.all_cons, hc, Bool.true_and]
          rw [hcs]
          exact hall
      | false =>
          have h1 : dropTrailingSpaces (c :: cs) = c :: dropTrailingSpaces cs := by
            simp only [dropTrailingSpaces]
            rw [hcond]
            rfl
          refine ⟨sp, hall, ?_⟩
          rw [h1, List.cons_append]
          exact congrArg (c :: ·) heq

lemma dropLeadingSpaces_head : ∀ (s : List Char) {c : Char} {t : List Char},
    dropLeadingSpaces s = c :: t → isSpaceChar c = false := by
  intro s
  induction s with
  | nil => intro c t h; cases h
  | cons a as ih =>
      intro c t h
      cases ha : isSpaceChar a with
      | true =>
          simp only [dropLeadingSpaces, ha, if_true] at h
          exact ih h
      | false =>
          simp only [dropLeadingSpaces, ha] at h
          cases h
          exact ha

lemma dropLeadingSpaces_of_head {c : Char} {t : List Char} (h : isSpaceChar c = false) :
    dropLeadingSpaces (c :: t) = c :: t := by
  simp [dropLeadingSpaces, h]

lemma dropTrailingSpaces_ne_nil_of_head {c : Char} {cs : List Char}
    (h : isSpaceChar c = false) : dropTrailingSpaces (c :: cs) ≠ [] := by
  simp only [dropTrailingSpaces, h, Bool.and_false]
  exact List.cons_ne_nil _ _

lemma dropTrailingSpaces_cons_shape (c : Char) (cs : List Char) :
    dropTrailingSpaces (c :: cs) = [] ∨
      dropTrailingSpaces (c :: cs) = c :: dropTrailingSpaces cs := by
  cases hcond : ((dropTrailingSpaces cs).isEmpty && isSpaceChar c) with
  | true =>
      left
      simp only [dropTrailingSpaces]
      rw [hcond]
      rfl
  | false =>
      right
      simp only [dropTrailingSpaces]
      rw [hcond]
      rfl

lemma dropLeadingSpaces_stripChars (s : List Char) :
    dropLeadingSpaces (stripChars s) = stripChars s := by
  cases hu : dropLeadingSpaces s with
  | nil => simp [stripChars, hu, dropTrailingSpaces, dropLeadingSpaces]
  | cons c t =>
      have hc : isSpaceChar c = false := dropLeadingSpaces_head s hu
      unfold stripChars
      rw [hu]
      rcases dropTrailingSpaces_cons_shape c t with h | h
      · rw [h]; rfl
      · rw [h]
        exact dropLeadingSpaces_of_head hc

lemma wordAtHead_stripChars {kw : List Char} (hall : kw.all isUpperAZ = true) (s : List Char) :
    wordAtHead kw (dropLeadingSpaces (stripChars s)) = wordAtHead kw (dropLeadingSpaces s) := by
  rw [dropLeadingSpaces_stripChars]
  obtain ⟨sp, hsp, heq⟩ := dropTrailingSpaces_decomp (dropLeadingSpaces s)
  conv_rhs => rw [heq]
  rw [wordAtHead_append_spaces hall hsp]
  rfl

lemma containsWordCI_stripChars {kw : List Char} (hne : kw ≠ [])
    (hall : kw.all isUpperAZ = true) (s : List Char) :
    containsWordCI kw (stripChars s) = containsWordCI kw s := by
  obtain ⟨sp1, hsp1, heq1⟩ := dropLeadingSpaces_decomp s
  obtain ⟨sp2, hsp2, heq2⟩ := dropTrailingSpaces_decomp (dropLeadingSpaces s)
  unfold containsWordCI
  conv_rhs => rw [heq1, containsWordFrom_spaces_prepend hne hall sp1 hsp1, heq2,
    containsWordFrom_append_spaces hne hall hsp2]
  rfl

lemma stripChars_ne_nil_of_wordAtHead {kw : List Char} (hne : kw ≠ []) {s : List Char}
    (h : wordAtHead kw (dropLeadingSpaces s) = true) : stripChars s ≠ [] := by
  obtain ⟨k, ks, hk⟩ := exists_cons_of_ne_nil hne
  subst hk
  cases hu : dropLeadingSpaces s with
  | nil =>
      rw [hu] at h
      simp [wordAtHead, startsWithCI] at h
  | cons c t =>
      have hc : isSpaceChar c = false := dropLeadingSpaces_head s hu
      unfold stripChars
      rw [hu]
      exact dropTrailingSpaces_ne_nil_of_head hc

lemma structMatch_stripChars (s : List Char) :
    structMatch (stripChars s) =
      (if wordAtHead selectKw (dropLeadingSpaces s) then some StartKw.sel
       else if wordAtHead withKw (dropLeadingSpaces s) then some StartKw.cte
       else none) := by
  unfold structMatch
  have h1 : wordAtHead selectKw (dropLeadingSpaces (stripChars s)) =
      wordAtHead selectKw (dropLeadingSpaces s) := wordAtHead_stripChars (by decide) s
  have h2 : wordAtHead withKw (dropLeadingSpaces (stripChars s)) =
      wordAtHead withKw (dropLeadingSpaces s) := wordAtHead_stripChars (by decide) s
  simp only [h1, h2]

lemma validate_eq (s : String) :
    validate_generated_sql s =
      (if stripChars s.data = [] then
        ⟨false, true, "LLM returned an empty SQL query."⟩
      else if beginsWithSelectKw s then scanVerdict (stripChars s.data)
      else if beginsWithWithKw s then
        (if containsWordCI selectKw s.data then scanVerdict (stripChars s.data)
         else ⟨false, true, "SQL starts with WITH but does not contain a SELECT statement."⟩)
      else ⟨false, true, "Generated SQL must start with SELECT or WITH."⟩) := by
  unfold validate_generated_sql
  by_cases he : stripChars s.data = []
  · rw [if_pos he, if_pos he]
  · rw [if_neg he, if_neg he]
    have hm := structMatch_stripChars s.data
    have hsel : containsWordCI selectKw (stripChars s.data) = containsWordCI selectKw s.data :=
      containsWordCI_stripChars (by decide) (by decide) s.data
    unfold beginsWithSelectKw beginsWithWithKw
    cases h1 : wordAtHead selectKw (dropLeadingSpaces s.data) with
    | true => simp [hm, h1]
    | false =>
        cases h2 : wordAtHead withKw (dropLeadingSpaces s.data) with
        | true => simp [hm, h1, h2, hsel]
        | false => simp [hm, h1, h2]

lemma scanVerdict_valid (t : List Char) :
    (scanVerdict t).is_valid_query_structure = true := by
  unfold scanVerdict
  cases firstForbidden t <;> rfl

lemma forbidden_good :
    ∀ kw ∈ forbidden_keywords, kw.data ≠ [] ∧ kw.data.all isUpperAZ = true := by decide

lemma firstForbidden_isSome_iff (s : String) :
    (firstForbidden (stripChars s.data)).isSome = true ↔
      ∃ kw ∈ forbidden_keywords, containsWordCI kw.data s.data = true := by
  unfold firstForbidden
  rw [List.find?_isSome]
  constructor
  · rintro ⟨kw, hmem, hp⟩
    refine ⟨kw, hmem, ?_⟩
    rw [← containsWordCI_stripChars (forbidden_good kw hmem).1 (forbidden_good kw hmem).2 s.data]
    exact hp
  · rintro ⟨kw, hmem, hp⟩
    refine ⟨kw, hmem, ?_⟩
    rw [containsWordCI_stripChars (forbidden_good kw hmem).1 (forbidden_good kw hmem).2 s.data]
    exact hp

lemma validate_of_valid {s : String}
    (hvalid : (validate_generated_sql s).is_valid_query_structure = true) :
    validate_generated_sql s = scanVerdict (stripChars s.data) := by
  rw [validate_eq] at hvalid ⊢
  by_cases he : stripChars s.data = []
  · simp [he] at hvalid
  · simp only [if_neg he] at hvalid ⊢
    cases h1 : beginsWithSelectKw s with
    | true => simp [h1]
    | false =>
        cases h2 : beginsWithWithKw s with
        | false => simp [h1, h2] at hvalid
        | true =>
            cases h3 : containsWordCI selectKw s.data with
            | true => simp [h1, h2, h3]
            | false => simp [h1, h2, h3] at hvalid

/-- C1: for every string that passes the structure check, the validator marks
it unsafe exactly when one of the ten forbidden keywords occurs whole-word
case-insensitively in the string; the message then cites a forbidden keyword
actually present; and the string "SELECT * FROM t; DROP TABLE t" is rejected
citing DROP. -/
theorem validator_keyword_scan_c1 :
    (∀ s : String, (validate_generated_sql s).is_valid_query_structure = true →
      (((validate_generated_sql s).is_safe_for_readonly = false) ↔
        ∃ kw ∈ forbidden_keywords, containsWordCI kw.data s.data = true) ∧
      ((validate_generated_sql s).is_safe_for_readonly = false →
        ∃ kw ∈ forbidden_keywords, containsWordCI kw.data s.data = true ∧
          (validate_generated_sql s).validation_error_message = disallowedMsg kw)) ∧
    validate_generated_sql "SELECT * FROM t; DROP TABLE t" =
      ⟨true, false, disallowedMsg "DROP"⟩ := by
  refine ⟨?_, by decide⟩
  intro s hvalid
  rw [validate_of_valid hvalid]
  unfold scanVerdict
  cases hf : firstForbidden (stripChars s.data) with
  | some kw =>
      have hsome : (firstForbidden (stripChars s.data)).isSome = true := by rw [hf]; rfl
      have hex := (firstForbidden_isSome_iff s).mp hsome
      refine ⟨⟨fun _ => hex, fun _ => rfl⟩, fun _ => ?_⟩
      have hmem := List.mem_of_find?_eq_some hf
      have hp := List.find?_some hf
      refine ⟨kw, hmem, ?_, rfl⟩
      rw [← containsWordCI_stripChars (forbidden_good kw hmem).1 (forbidden_good kw hmem).2 s.data]
      exact hp
  | none =>
      refine ⟨⟨fun h => by simp at h, fun hex => ?_⟩, fun h => by simp at h⟩
      have h4 := (firstForbidden_isSome_iff s).mpr hex
      rw [hf] at h4
      simp at h4

/-- C1 witness: the concrete rejected string instantiates the scan
characterization. -/
theorem validator_keyword_scan_c1_witness :
    ((validate_generated_sql "SELECT * FROM t; DROP TABLE t").is_safe_for_readonly = false) ↔
      ∃ kw ∈ forbidden_keywords,
        containsWordCI kw.data "SELECT * FROM t; DROP TABLE t".data = true :=
  (validator_keyword_scan_c1.1 "SELECT * FROM t; DROP TABLE t" (by decide)).1

/-- C2: rejection precedence.  Empty or whitespace-only input is rejected
with the empty-query message before anything else; when the structure check
fails the keyword scan never runs, so `is_safe_for_readonly` keeps its
initial value `true`; a whitespace-only string gets the empty-query message
and "DROP TABLE t" gets the structure message despite containing DROP. -/
theorem validator_precedence_c2 :
    (∀ s : String, stripChars s.data = [] →
        validate_generated_sql s = ⟨false, true, "LLM returned an empty SQL query."⟩) ∧
    (∀ s : String, (validate_generated_sql s).is_valid_query_structure = false →
        (validate_generated_sql s).is_safe_for_readonly = true) ∧
    validate_generated_sql "   " = ⟨false, true, "LLM returned an empty SQL query."⟩ ∧
    validate_generated_sql "DROP TABLE t" =
      ⟨false, true, "Generated SQL must start with SELECT or WITH."⟩ := by
  refine ⟨?_, ?_, by decide, by decide⟩
  · intro s he
    rw [validate_eq, if_pos he]
  · intro s hinvalid
    rw [validate_eq] at hinvalid ⊢
    by_cases he : stripChars s.data = []
    · simp [he]
    · simp only [if_neg he] at hinvalid ⊢
      cases h1 : beginsWithSelectKw s with
      | true => simp [h1, scanVerdict_valid] at hinvalid
      | false =>
          cases h2 : beginsWithWithKw s with
          | false => simp [h1, h2]
          | true =>
              cases h3 : containsWordCI selectKw s.data with
              | true => simp [h1, h2, h3, scanVerdict_valid] at hinvalid
              | false => simp [h1, h2, h3]

/-- C2 witness: a whitespace-only string hits the empty-input rule. -/
theorem validator_precedence_c2_witness :
    validate_generated_sql "  " = ⟨false, true, "LLM returned an empty SQL query."⟩ :=
  validator_precedence_c2.1 "  " (by decide)

lemma wordAtHead_select_eq_false_of_with {u : List Char}
    (h : wordAtHead withKw u = true) : wordAtHead selectKw u = false := by
  have hwk : withKw = ['W', 'I', 'T', 'H'] := by decide
  have hsk : selectKw = ['S', 'E', 'L', 'E', 'C', 'T'] := by decide
  cases u with
  | nil =>
      rw [hwk] at h
      simp [wordAtHead, startsWithCI] at h
  | cons c cs =>
      rw [hwk] at h
      simp only [wordAtHead, startsWithCI, Bool.and_eq_true] at h
      have hW : ciEq 'W' c = true := h.1.1
      have h87 : upNat c = 87 := by
        simp only [ciEq, beq_iff_eq] at hW
        rw [← hW]
        decide
      have hS : ciEq 'S' c = false := by
        simp only [ciEq, beq_eq_false_iff_ne, ne_eq, h87]
        decide
      rw [hsk]
      simp [wordAtHead, startsWithCI, hS]

/-- C3: for every string beginning (after optional leading whitespace,
case-insensitively) with the word WITH, structural validity holds exactly
when the token SELECT occurs whole-word somewhere in the string; when SELECT
is absent the verdict carries exactly the WITH-specific message; and the
string "WITH x AS (SELECT 1) SELECT * FROM x" is accepted. -/
theorem validator_with_requires_select_c3 :
    (∀ s : String, beginsWithWithKw s = true →
      (((validate_generated_sql s).is_valid_query_structure = true) ↔
        containsWordCI selectKw s.data = true) ∧
      (containsWordCI selectKw s.data = false →
        validate_generated_sql s =
          ⟨false, true, "SQL starts with WITH but does not contain a SELECT statement."⟩)) ∧
    validate_generated_sql "WITH x AS (SELECT 1) SELECT * FROM x" = ⟨true, true, ""⟩ := by
  refine ⟨?_, by decide⟩
  intro s hw
  have hw' : wordAtHead withKw (dropLeadingSpaces s.data) = true := hw
  have hne : stripChars s.data ≠ [] :=
    stripChars_ne_nil_of_wordAtHead (by decide) hw'
  have hsel : beginsWithSelectKw s = false := wordAtHead_select_eq_false_of_with hw'
  rw [validate_eq]
  simp only [if_neg hne, hsel, hw, Bool.false_eq_true, if_false, if_true]
  cases h3 : containsWordCI selectKw s.data with
  | true =>
      simp only [h3, if_true]
      refine ⟨by simp [scanVerdict_valid], fun h4 => by simp at h4⟩
  | false =>
      simp only [h3, Bool.false_eq_true, if_false]
      exact ⟨by simp, fun _ => trivial⟩

/-- C3 witness: a WITH query with no SELECT token anywhere is rejected with
the WITH-specific message. -/
theorem validator_with_requires_select_c3_witness :
    validate_generated_sql "WITH x AS (TABLE y)" =
      ⟨false, true, "SQL starts with WITH but does not contain a SELECT statement."⟩ :=
  (validator_with_requires_select_c3.1 "WITH x AS (TABLE y)" (by decide)).2 (by decide)

/-- C4 counterexample: the code accepts "WITH x AS (SELECT 1)" because the
`\bSELECT\b` search also matches the SELECT inside the CTE body, so no
rejection (and in particular not the WITH-specific message) occurs. -/
theorem validator_with_cte_c4_counterexample :
    (validate_generated_sql "WITH x AS (SELECT 1)").is_valid_query_structure = true ∧
    (validate_generated_sql "WITH x AS (SELECT 1)").is_safe_for_readonly = true ∧
    (validate_generated_sql "WITH x AS (SELECT 1)").validation_error_message ≠
      "SQL starts with WITH but does not contain a SELECT statement." := by decide

/-- C4 (amended): "WITH x AS (SELECT 1)" is accepted, since the SELECT-token
requirement is satisfied by the SELECT inside the CTE body; the WITH-specific
rejection only arises when no SELECT token occurs anywhere, as for
"WITH x AS (TABLE 1)". -/
theorem validator_with_cte_c4_amended :
    validate_generated_sql "WITH x AS (SELECT 1)" = ⟨true, true, ""⟩ ∧
    validate_generated_sql "WITH x AS (TABLE 1)" =
      ⟨false, true, "SQL starts with WITH but does not contain a SELECT statement."⟩ :=
  ⟨by decide, by decide⟩

/-- C5 counterexample: the empty string does not begin with SELECT or WITH,
yet the validator rejects it with the empty-query message, not with
"Generated SQL must start with SELECT or WITH.". -/
theorem validator_must_start_c5_counterexample :
    beginsWithSelectKw "" = false ∧ beginsWithWithKw "" = false ∧
    (validate_generated_sql "").validation_error_message ≠
      "Generated SQL must start with SELECT or WITH." := by decide

/-- C5 (amended): every string that is not empty or whitespace-only and does
not begin (after optional leading whitespace, case-insensitively) with the
word SELECT or the word WITH is rejected with the must-start message. -/
theorem validator_must_start_c5_amended (s : String) (hne : stripChars s.data ≠ [])
    (h1 : beginsWithSelectKw s = false) (h2 : beginsWithWithKw s = false) :
    validate_generated_sql s =
      ⟨false, true, "Generated SQL must start with SELECT or WITH."⟩ := by
  rw [validate_eq]
  simp [if_neg hne, h1, h2]

/-- C5 witness: an UPDATE statement is rejected with the must-start
message. -/
theorem validator_must_start_c5_witness :
    validate_generated_sql "UPDATE t SET a = 1" =
      ⟨false, true, "Generated SQL must start with SELECT or WITH."⟩ :=
  validator_must_start_c5_amended "UPDATE t SET a = 1" (by decide) (by decide) (by decide)

def fenceSql : List Char := "```sql".data

def fence : List Char := "```".data

/-- Markdown fence clean-up of `generate_sql_from_nlp`, piagent.py lines
303-312: strip, remove one leading fence (first trying the sql-tagged one),
remove one trailing fence, strip again.  Python's `s[6:]`, `s[3:]` and
`s[:-3]` are `drop` and `take (length - 3)`. -/
def stripFencesL (s : List Char) : List Char :=
  let t := stripChars s
  let t1 := if fenceSql.isPrefixOf t then t.drop 6
            else if fence.isPrefixOf t then t.drop 3
            else t
  let t2 := if fence.isSuffixOf t1 then t1.take (t1.length - 3) else t1
  stripChars t2

def stripFences (raw : String) : String := (stripFencesL raw.data).asString

/-- Modelled from the spec: strip a single leading markdown code-fence
(three backticks followed by sql, or bare three backticks) if present. -/
def specStripLeadingFence (t : List Char) : List Char :=
  if fenceSql.isPrefixOf t then t.drop fenceSql.length
  else if fence.isPrefixOf t then t.drop fence.length
  else t

/-- Modelled from the spec: strip a single trailing markdown code-fence
(three backticks) if present. -/
def specStripTrailingFence (t : List Char) : List Char :=
  if fence.isSuffixOf t then t.take (t.length - fence.length) else t

/-- C6: the post-processing strips surrounding whitespace, then one leading
fence and one trailing fence if present, then surrounding whitespace again;
in particular the fenced reply containing SELECT 1 becomes exactly
"SELECT 1". -/
theorem fence_stripping_c6 :
    (∀ raw : String, stripFences raw =
      (stripChars (specStripTrailingFence (specStripLeadingFence
        (stripChars raw.data)))).asString) ∧
    stripFences "```sql\nSELECT 1\n```" = "SELECT 1" :=
  ⟨fun _ => rfl, by decide⟩

/-- A BigQuery result cell as seen by the row-materialization loop of
`execute_bigquery_query` (piagent.py lines 356-368): a temporal value
carrying its `isoformat()` string, a plain float/int/str/bool/None value, or
any other value (such as an arbitrary-precision NUMERIC) carrying the result
of `float(value)` when that conversion succeeds and its `str(value)` text.
Python floats are modelled as exact rationals; the claims only involve
exactly representable values. -/
inductive BQCell where
  | temporal (iso : String)
  | float (x : ℚ)
  | int (n : ℤ)
  | str (s : String)
  | bool (b : Bool)
  | null
  | other (floatConv : Option ℚ) (strConv : String)
deriving Repr, DecidableEq

/-- A plain JSON-serializable scalar, the cell type of the materialized
records. -/
inductive PlainValue where
  | str (s : String)
  | num (x : ℚ)
  | int (n : ℤ)
  | bool (b : Bool)
  | null
deriving Repr, DecidableEq

/-- Per-cell coercion of piagent.py lines 357-368: `isoformat()` first,
then float/int/str/bool/None passed through, then attempted `float(value)`,
then fallback `str(value)`. -/
def coerce_cell : BQCell → PlainValue
  | .temporal iso => .str iso
  | .float x => .num x
  | .int n => .int n
  | .str s => .str s
  | .bool b => .bool b
  | .null => .null
  | .other (some x) _ => .num x
  | .other none s => .str s

/-- A materialized record: column name to plain value, in row order. -/
def Record := List (String × PlainValue)

/-- Row materialization of piagent.py lines 355-369: every (key, value) item
of the row is kept with the coerced value. -/
def materialize_row (row : List (String × BQCell)) : List (String × PlainValue) :=
  row.map (fun kv => (kv.1, coerce_cell kv.2))

/-- The records list built by `execute_bigquery_query` from the rows the
BigQuery client returns (piagent.py lines 353-372). -/
def execute_bigquery_query (rows : List (List (String × BQCell))) :
    List (List (String × PlainValue)) :=
  rows.map materialize_row

/-- C8: the cell coercion policy — temporal values become their ISO string;
float, int, str, bool and null pass through; any other value becomes its
float conversion when that succeeds and its string representation otherwise;
in particular the decimal 12.50 becomes the float 12.5 and a date becomes
its ISO-8601 string. -/
theorem row_coercion_c8 :
    (∀ iso, coerce_cell (.temporal iso) = .str iso) ∧
    (∀ x, coerce_cell (.float x) = .num x) ∧
    (∀ n, coerce_cell (.int n) = .int n) ∧
    (∀ s, coerce_cell (.str s) = .str s) ∧
    (∀ b, coerce_cell (.bool b) = .bool b) ∧
    coerce_cell .null = .null ∧
    (∀ x st, coerce_cell (.other (some x) st) = .num x) ∧
    (∀ st, coerce_cell (.other none st) = .str st) ∧
    coerce_cell (.other (some (12.5 : ℚ)) "12.50") = .num (12.5 : ℚ) ∧
    coerce_cell (.temporal "2024-05-01") = .str "2024-05-01" ∧
    materialize_row
        [("day", .temporal "2024-05-01"), ("amount", .other (some (12.5 : ℚ)) "12.50")] =
      [("day", .str "2024-05-01"), ("amount", .num (12.5 : ℚ))] :=
  ⟨fun _ => rfl, fun _ => rfl, fun _ => rfl, fun _ => rfl, fun _ => rfl, rfl,
   fun _ _ => rfl, fun _ => rfl, rfl, rfl, rfl⟩

/-- Models `json.dumps(row_data)` for a materialized record (piagent.py
line 416); the exact number formatting of the library call is immaterial to
the claims proved about the prompt. -/
def renderPlain : PlainValue → String
  | .str s => "\"" ++ s ++ "\""
  | .num x => toString x
  | .int n => toString n
  | .bool true => "true"
  | .bool false => "false"
  | .null => "null"

def renderRecord (row : List (String × PlainValue)) : String :=
  "\x7b" ++ String.intercalate ", "
      (row.map (fun kv => "\"" ++ kv.1 ++ "\": " ++ renderPlain kv.2)) ++ "\x7d"

/-- The numbered sample lines "Row i: ..." of piagent.py lines 414-416. -/
def sampleLines : Nat → List (List (String × PlainValue)) → String
  | _, [] => ""
  | i, r :: rs =>
      "Row " ++ toString (i + 1) ++ ": " ++ renderRecord r ++ "\n" ++ sampleLines (i + 1) rs

/-- The `context_data_str` assembled by `generate_business_summary`
(piagent.py lines 406-421): column names and up to `cap` sample rows, a
more-rows marker when truncated, and the total row count; or the no-data
sentence when there are no rows. -/
def context_data_str (query_results : List (List (String × PlainValue)))
    (cap : Nat) : String :=
  if 0 < query_results.length then
    (if (query_results.take cap).isEmpty then ""
     else
       "Column Names: " ++
         String.intercalate ", " (((query_results.take cap).headD []).map Prod.fst) ++
         "\n" ++
       "Sample Data (first " ++ toString (query_results.take cap).length ++ " of " ++
         toString query_results.length ++ " total rows):\n" ++
       sampleLines 0 (query_results.take cap)) ++
    (if cap < query_results.length then
       "... and " ++ toString (query_results.length - cap) ++ " more rows.\n"
     else "") ++
    ("Total rows retrieved: " ++ toString query_results.length ++ "\n")
  else "The query returned no data (0 rows).\n"

/-- The summary prompt of piagent.py lines 423-457.  The constant
instruction prose (the role description and the ten numbered guidelines) is
abbreviated to fixed placeholder text; the claims proved here depend only on
the interpolated question, SQL and data-context parts. -/
def summary_prompt (nlp_question sql_query ctx : String) : String :=
  "\n    [business-analyst role instructions]\n\n" ++
  "    Original Natural Language Question from User:\n    \"" ++ nlp_question ++ "\"\n\n" ++
  "    The SQL Query that was executed to get the data:\n    ```sql\n    " ++
    sql_query ++ "\n    ```\n\n" ++
  "    Data Results from the Query:\n    " ++ ctx ++ "\n\n" ++
  "    [ten numbered summary-writing guidelines]\n\n    Business Summary:\n    "

/-- Environment oracle for `generate_business_summary`: whether Vertex AI
initialized at startup, the outcome of constructing the GenerativeModel
(error message or success), and the outcome of the generate_content call
(error message, or the text extracted from the response before
stripping). -/
structure SummaryEnv where
  vertex_ai_initialized : Bool
  model_init : Except String Unit
  gen_result : Except String String
deriving Repr

/-- The `generate_business_summary` function of piagent.py lines 383-491;
every failure path returns a string instead of raising. -/
def generate_business_summary (env : SummaryEnv) (nlp_question sql_query : String)
    (query_results : Option (List (List (String × PlainValue)))) (cap : Nat) : String :=
  if !env.vertex_ai_initialized then
    "Retrieved " ++
      toString (match query_results with | none => 0 | some l => l.length) ++
      " records. Summary generation failed: Vertex AI unavailable."
  else
    match query_results with
    | none => "Internal error: Query results were unexpectedly None before summarization."
    | some results =>
        match env.model_init with
        | .error e =>
            "Retrieved " ++ toString results.length ++
              " records. Error initializing summary model: " ++ e
        | .ok _ =>
            match env.gen_result with
            | .error e =>
                "Successfully retrieved " ++ toString results.length ++
                  " records. An error occurred while generating a business summary: " ++ e
            | .ok raw =>
                if (stripChars raw.data).asString = "" then
                  "Retrieved " ++ toString results.length ++
                    " records, but could not generate a specific summary."
                else (stripChars raw.data).asString

/-- C9: the summarizer returns a string for every environment outcome; the
sample shown in the prompt is capped at 10 rows; when rows exist, the data
context interpolated into the prompt ends with the total row count; when
Vertex AI is unavailable it returns the placeholder noting the row count and
the unavailability; and when generation succeeds with empty text it returns
the placeholder noting the row count. -/
theorem summarizer_never_fails_c9 (env : SummaryEnv) (q sql : String)
    (results : List (List (String × PlainValue))) :
    (∀ qr, ∃ a : String, generate_business_summary env q sql qr 10 = a) ∧
    ((results.take 10).length ≤ 10) ∧
    (0 < results.length →
      ∃ p, (context_data_str results 10).data =
        p ++ ("Total rows retrieved: " ++ toString results.length ++ "\n").data) ∧
    (env.vertex_ai_initialized = false →
      generate_business_summary env q sql (some results) 10 =
        "Retrieved " ++ toString results.length ++
          " records. Summary generation failed: Vertex AI unavailable.") ∧
    (∀ t, env.vertex_ai_initialized = true → env.model_init = .ok () →
      env.gen_result = .ok t → stripChars t.data = [] →
      generate_business_summary env q sql (some results) 10 =
        "Retrieved " ++ toString results.length ++
          " records, but could not generate a specific summary.") := by
  refine ⟨fun qr => ⟨_, rfl⟩, ?_, ?_, ?_, ?_⟩
  · exact List.length_take_le 10 results
  · intro hn
    unfold context_data_str
    rw [if_pos hn]
    exact ⟨_, String.data_append _ _⟩
  · intro h
    simp [generate_business_summary, h]
  · intro t h1 h2 h3 h4
    have hnil : (stripChars t.data).asString = "" := by
      rw [h4]
      rfl
    simp [generate_business_summary, h1, h2, h3, hnil]

def summaryEnvUnavailable : SummaryEnv := ⟨false, Except.ok (), Except.ok ""⟩

/-- C9 witness: with the generation service unavailable and one result row,
the summarizer returns the degraded placeholder naming the row count. -/
theorem summarizer_never_fails_c9_witness :
    generate_business_summary summaryEnvUnavailable "q" "SELECT 1"
        (some [[("total", PlainValue.num 1000)]]) 10 =
      "Retrieved 1 records. Summary generation failed: Vertex AI unavailable." := by
  have h := (summarizer_never_fails_c9 summaryEnvUnavailable "q" "SELECT 1"
      [[("total", PlainValue.num 1000)]]).2.2.2.1 rfl
  rw [h]
  decide

lemma disallowedMsg_ne_empty (kw : String) : disallowedMsg kw ≠ "" := by
  unfold disallowedMsg
  intro h
  have hlen := congrArg String.length h
  rw [String.length_append, String.length_append] at hlen
  have ha : ("Generated SQL contains a disallowed keyword: " : String).length = 45 := by decide
  have hb : ("" : String).length = 0 := by decide
  rw [ha, hb] at hlen
  omega

lemma validate_message_ne_empty {s : String}
    (h : (validate_generated_sql s).is_valid_query_structure = false ∨
         (validate_generated_sql s).is_safe_for_readonly = false) :
    (validate_generated_sql s).validation_error_message ≠ "" := by
  rw [validate_eq] at h ⊢
  by_cases he : stripChars s.data = []
  · rw [if_pos he]
    decide
  · rw [if_neg he] at h ⊢
    cases h1 : beginsWithSelectKw s with
    | true =>
        simp only [h1, if_true] at h ⊢
        cases hf : firstForbidden (stripChars s.data) with
        | some kw =>
            simp only [scanVerdict, hf]
            exact disallowedMsg_ne_empty kw
        | none => simp [scanVerdict, hf] at h
    | false =>
        cases h2 : beginsWithWithKw s with
        | false =>
            simp only [h1, h2, Bool.false_eq_true, if_false]
            decide
        | true =>
            simp only [h1, h2, Bool.false_eq_true, if_false, if_true] at h ⊢
            cases h3 : containsWordCI selectKw s.data with
            | true =>
                simp only [h3, if_true] at h ⊢
                cases hf : firstForbidden (stripChars s.data) with
                | some kw =>
                    simp only [scanVerdict, hf]
                    exact disallowedMsg_ne_empty kw
                | none => simp [scanVerdict, hf] at h
            | false =>
                simp only [h3, Bool.false_eq_true, if_false]
                decide

/-- The DataTableContent response model (piagent.py lines 500-503). -/
structure DataTableContent where
  data : List (List (String × PlainValue))
  columns : List String
deriving Repr, DecidableEq

/-- The QueryResponse response model (piagent.py lines 505-509). -/
structure QueryResponse where
  query : String
  sql_query : Option String
  dataframe_content : Option DataTableContent
  answer : String
deriving Repr, DecidableEq

/-- How a request leaves the /ask handler: either an HTTPException escapes
as a transport-level error (only the two 503 dependency checks before the
try block, piagent.py lines 519-524), or a normal HTTP 200 body is returned
(every exception inside the try block is caught and converted into a
QueryResponse). -/
inductive AskResult where
  | transport (code : Nat) (detail : String)
  | ok (resp : QueryResponse)
deriving Repr, DecidableEq

/-- The handler outcome together with the query string sent to BigQuery, if
the execution stage was reached at all. -/
structure AskOutcome where
  result : AskResult
  executed_sql : Option String
deriving Repr, DecidableEq

/-- Environment oracle for one /ask request of the direct-SQL variant:
dependency availability, the generation outcome (an HTTPException detail or
the model text before fence clean-up), the execution outcome (an
HTTPException detail or the raw BigQuery rows), and the summarizer
environment. -/
structure AskEnv where
  vertex_ai_initialized : Bool
  bq_available : Bool
  gen : Except String String
  exec : Except String (List (List (String × BQCell)))
  summary : SummaryEnv

/-- The /ask endpoint `ask_nlp_query` of piagent.py lines 514-642: the two
startup checks, generation, the validation block, the early return on
validation failure (with the generic fallback message when no specific one
was set), execution, dataframe shaping (columns from the first record), and
summarization. -/
def ask_nlp_query (env : AskEnv) (question : String) : AskOutcome :=
  if !env.vertex_ai_initialized then
    ⟨.transport 503 "Vertex AI service failed to initialize on startup.", none⟩
  else if !env.bq_available then
    ⟨.transport 503 "BigQuery client failed to initialize on startup.", none⟩
  else
    match env.gen with
    | .error detail => ⟨.ok ⟨question, none, none, detail⟩, none⟩
    | .ok raw =>
        let generated_sql := stripFences raw
        let v := validate_generated_sql generated_sql
        if !v.is_valid_query_structure || !v.is_safe_for_readonly then
          ⟨.ok ⟨question, some generated_sql, none,
            if v.validation_error_message = "" then
              "Generated SQL failed validation (structure or safety)."
            else v.validation_error_message⟩, none⟩
        else
          match env.exec with
          | .error detail =>
              ⟨.ok ⟨question, some generated_sql, none, detail⟩, some generated_sql⟩
          | .ok rows =>
              let query_results := execute_bigquery_query rows
              ⟨.ok ⟨question, some generated_sql,
                some ⟨query_results, (query_results.headD []).map Prod.fst⟩,
                generate_business_summary env.summary question generated_sql
                  (some query_results) 10⟩, some generated_sql⟩

/-- C7: whenever the dependencies are up, generation succeeded, and the
generated SQL fails validation, the /ask endpoint returns a normal HTTP 200
response whose sql_query is the rejected generated SQL, whose
dataframe_content is null and whose answer is the validation failure
message, and the rejected query is never sent for execution. -/
theorem validation_rejection_response_c7 (env : AskEnv) (q raw : String)
    (h1 : env.vertex_ai_initialized = true) (h2 : env.bq_available = true)
    (h3 : env.gen = .ok raw)
    (h4 : (validate_generated_sql (stripFences raw)).is_valid_query_structure = false ∨
          (validate_generated_sql (stripFences raw)).is_safe_for_readonly = false) :
    ask_nlp_query env q =
      ⟨.ok ⟨q, some (stripFences raw), none,
        (validate_generated_sql (stripFences raw)).validation_error_message⟩, none⟩ := by
  unfold ask_nlp_query
  rw [h1, h2, h3]
  have hmsg := validate_message_ne_empty h4
  have hcond : (!(validate_generated_sql (stripFences raw)).is_valid_query_structure ||
      !(validate_generated_sql (stripFences raw)).is_safe_for_readonly) = true := by
    rcases h4 with h | h <;> simp [h]
  simp only [Bool.not_true, Bool.false_eq_true, if_false, hcond, if_true, if_neg hmsg]

def askEnvRejected : AskEnv :=
  ⟨true, true, Except.ok "DROP TABLE t", Except.ok [], summaryEnvUnavailable⟩

/-- C7 witness: with generation returning "DROP TABLE t" the endpoint
answers HTTP 200 with the rejected SQL, no data and the structure message,
and nothing is executed. -/
theorem validation_rejection_response_c7_witness :
    ask_nlp_query askEnvRejected "q" =
      ⟨.ok ⟨"q", some "DROP TABLE t", none,
        "Generated SQL must start with SELECT or WITH."⟩, none⟩ := by
  have h := validation_rejection_response_c7 askEnvRejected "q" "DROP TABLE t"
    rfl rfl rfl (Or.inl (by decide))
  rw [h]
  decide

/-- One message of a DataQnA conversation history (main.py): the input user
message built from the question text, or a streamed reply container. -/
inductive DQMessage where
  | user (text : String)
  | reply (payload : String)
deriving Repr, DecidableEq

/-- The `self.conversation_histories` dict of variant 1 (main.py), as an
association list with unique keys and Python-dict update semantics. -/
abbrev HistMap := List (String × List DQMessage)

/-- Python `dict.get(c)`. -/
def getHist : HistMap → String → Option (List DQMessage)
  | [], _ => none
  | (k, v) :: rest, c => if k = c then some v else getHist rest c

/-- Python `dict[c] = v`: replace the entry in place, or append it. -/
def setHist : HistMap → String → List DQMessage → HistMap
  | [], c, v => [(c, v)]
  | (k, w) :: rest, c, v =>
      if k = c then (c, v) :: rest else (k, w) :: setHist rest c v

/-- Python `del dict[c]`. -/
def eraseHist : HistMap → String → HistMap
  | [], _ => []
  | (k, w) :: rest, c => if k = c then rest else (k, w) :: eraseHist rest c

/-- `DataQnA.reset_conversation` (main.py lines 392-396): deletes the entry
when a truthy (nonempty) conversation id is given and present; otherwise
does nothing. -/
def reset_conversation (histories : HistMap) (conversation_id : Option String) : HistMap :=
  match conversation_id with
  | none => histories
  | some c =>
      if c ≠ "" ∧ (getHist histories c).isSome then eraseHist histories c
      else histories

/-- Environment oracle for one `DataQnA.ask_question` call: whether the
AskQuestionRequest construction succeeds (main.py lines 425-435), and the
stream outcome (an error, or the complete list of streamed reply
containers). -/
structure QnAEnv where
  request_ok : Bool
  stream : Except String (List DQMessage)

/-- The effect of `DataQnA.ask_question` (main.py lines 398-544) on
`self.conversation_histories`: the prior history is read with default []
for a truthy conversation id; the entry is written back (prior history,
then the input user message, then every streamed reply, main.py lines
483-485) only when the stream loop finished without error and only for a
truthy conversation id; on request-construction failure or stream error the
method returns early and the map is untouched. -/
def ask_question_histories (histories : HistMap) (env : QnAEnv)
    (question_text : String) (conversation_id : Option String) : HistMap :=
  let current_history :=
    match conversation_id with
    | some c => if c ≠ "" then (getHist histories c).getD [] else []
    | none => []
  let input_message := DQMessage.user question_text
  if !env.request_ok then histories
  else
    match env.stream with
    | .error _ => histories
    | .ok replies =>
        match conversation_id with
        | some c =>
            if c ≠ "" then
              setHist histories c (current_history ++ [input_message] ++ replies)
            else histories
        | none => histories

lemma getHist_setHist_self (m : HistMap) (k : String) (v : List DQMessage) :
    getHist (setHist m k v) k = some v := by
  induction m with
  | nil => simp [setHist, getHist]
  | cons kv rest ih =>
      obtain ⟨a, b⟩ := kv
      by_cases h : a = k
      · simp [setHist, h, getHist]
      · simp [setHist, h, getHist, ih]

lemma getHist_setHist_ne (m : HistMap) (k d : String) (v : List DQMessage)
    (hne : d ≠ k) : getHist (setHist m k v) d = getHist m d := by
  induction m with
  | nil => simp [setHist, getHist, Ne.symm hne]
  | cons kv rest ih =>
      obtain ⟨a, b⟩ := kv
      by_cases h : a = k
      · subst h
        simp [setHist, getHist, Ne.symm hne]
      · simp [setHist, h, getHist, ih]

lemma getHist_eraseHist_ne (m : HistMap) (k d : String) (hne : d ≠ k) :
    getHist (eraseHist m k) d = getHist m d := by
  induction m with
  | nil => rfl
  | cons kv rest ih =>
      obtain ⟨a, b⟩ := kv
      by_cases h : a = k
      · subst h
        simp [eraseHist, getHist, Ne.symm hne]
      · simp [eraseHist, h, getHist, ih]

/-- C10 counterexample: with the empty-string conversation id (a legal
`Optional[str]` value, but falsy in the code's truthiness checks) and a
successful stream, `ask_question` does not set the entry for that id to
prior history + input + replies — the map stays empty. -/
theorem conversation_history_c10_counterexample :
    getHist (ask_question_histories [] ⟨true, Except.ok [DQMessage.reply "r"]⟩
        "q" (some "")) "" ≠
      some (([] : List DQMessage) ++ [DQMessage.user "q"] ++ [DQMessage.reply "r"]) := by
  decide

/-- C10 (amended): for a nonempty conversation id c, a successful call sets
the entry for c to prior history + input message + streamed replies and
leaves every other id unchanged; a call with the empty-string id, a stream
error, a request-construction failure, or no conversation id leaves the map
entirely unchanged; reset_conversation touches at most the entry for its id
and does nothing for no id. -/
theorem conversation_history_frame_c10 (m : HistMap) (env : QnAEnv) (q c d : String) :
    (c ≠ "" → env.request_ok = true → ∀ replies, env.stream = .ok replies →
      (getHist (ask_question_histories m env q (some c)) c =
         some ((getHist m c).getD [] ++ [DQMessage.user q] ++ replies) ∧
       (d ≠ c → getHist (ask_question_histories m env q (some c)) d = getHist m d))) ∧
    (env.request_ok = true → ∀ replies, env.stream = .ok replies →
      ask_question_histories m env q (some "") = m) ∧
    (∀ e, env.stream = .error e → ask_question_histories m env q (some c) = m) ∧
    (env.request_ok = false → ask_question_histories m env q (some c) = m) ∧
    (ask_question_histories m env q none = m) ∧
    (d ≠ c → getHist (reset_conversation m (some c)) d = getHist m d) ∧
    (reset_conversation m none = m) := by
  refine ⟨?_, ?_, ?_, ?_, ?_, ?_, rfl⟩
  · intro hc hok replies hs
    have hred : ask_question_histories m env q (some c) =
        setHist m c ((getHist m c).getD [] ++ [DQMessage.user q] ++ replies) := by
      unfold ask_question_histories
      rw [hok, hs]
      simp [hc]
    rw [hred]
    exact ⟨getHist_setHist_self m c _, fun hd => getHist_setHist_ne m c d _ hd⟩
  · intro hok replies hs
    unfold ask_question_histories
    rw [hok, hs]
    simp
  · intro e he
    unfold ask_question_histories
    rw [he]
    cases env.request_ok <;> simp
  · intro h
    unfold ask_question_histories
    rw [h]
    simp
  · cases hok : env.request_ok <;> cases hs : env.stream <;>
      simp [ask_question_histories, hok, hs]
  · intro hd
    show getHist (if c ≠ "" ∧ (getHist m c).isSome = true then eraseHist m c else m) d =
      getHist m d
    split
    · exact getHist_eraseHist_ne m c d hd
    · rfl

def qnaEnvOk : QnAEnv := ⟨true, Except.ok [DQMessage.reply "r"]⟩

/-- C10 witness: a successful call under id "conv" appends input and reply
for "conv" and leaves the history of "other" untouched. -/
theorem conversation_history_frame_c10_witness :
    getHist (ask_question_histories [("other", [DQMessage.user "old"])] qnaEnvOk
        "q" (some "conv")) "conv" =
      some [DQMessage.user "q", DQMessage.reply "r"] ∧
    getHist (ask_question_histories [("other", [DQMessage.user "old"])] qnaEnvOk
        "q" (some "conv")) "other" = some [DQMessage.user "old"] := by
  have h := (conversation_history_frame_c10 [("other", [DQMessage.user "old"])] qnaEnvOk
      "q" "conv" "other").1 (by decide) rfl [DQMessage.reply "r"] rfl
  constructor
  · rw [h.1]
    decide
  · rw [h.2 (by decide)]
    decide

end PiAgent
